import Mathlib

/-!
Verification development for the roz-movie-api repository.

The definitions below are a shallow embedding of the in-process movie
repository (app/repositories/movies_repository.py), the service layer
(app/services/movies_service.py) and the claim-checking and key-selection
logic of the two token validator modules (app/core/token_validator.py and
app/core/keycloak.py).  Python strings are modelled by Lean strings;
Python str.lower() is modelled by mapping Char.toLower over the
characters, and the Python substring test "a in b" by substrCheck below.
Python integers are modelled by Int (or by Nat where the source value is
a length or count), and Python None by Option.none.
-/

/-- Boolean test that the first character list starts the second. -/
def prefixCheck (needle hay : List Char) : Bool :=
  match needle, hay with
  | [], _ => true
  | _, [] => false
  | c :: cs, d :: ds => c == d && prefixCheck cs ds

/-- Boolean test that the first character list occurs contiguously inside
the second: the model of the Python substring operator "needle in hay".
As in Python, the empty needle is contained in every haystack. -/
def substrCheck (needle : List Char) : List Char → Bool
  | [] => prefixCheck needle []
  | c :: rest => prefixCheck needle (c :: rest) || substrCheck needle rest

/-- Model of Python str.lower(): lower-case the characters of a string. -/
def pyLower (s : String) : List Char := s.data.map Char.toLower

/-- Movie domain model (app/models/movie.py, class Movie): movie_id,
title, optional year, list of genre labels. -/
structure Movie where
  movie_id : Int
  title : String
  year : Option Int
  genres : List String
deriving Repr, DecidableEq

namespace MoviesRepository

/-- Embedding of MoviesRepository._filter_movies
(app/repositories/movies_repository.py lines 140-173).  The three
optional filters are applied in source order: a truthy title filters by
case-insensitive substring match on the title; a truthy genre keeps a
movie when some element of its genres list contains the lowered genre
value as a substring; a present year keeps movies whose year equals it.
Python truthiness of the optional strings is modelled explicitly: None
and the empty string both impose no constraint. -/
def filter_movies (movies : List Movie) (title genre : Option String)
    (year : Option Int) : List Movie :=
  let r1 :=
    match title with
    | none => movies
    | some t =>
      if t = "" then movies
      else movies.filter (fun m => substrCheck (pyLower t) (pyLower m.title))
  let r2 :=
    match genre with
    | none => r1
    | some g =>
      if g = "" then r1
      else r1.filter (fun m => m.genres.any (fun gg => substrCheck (pyLower g) (pyLower gg)))
  let r3 :=
    match year with
    | none => r2
    | some y => r2.filter (fun m => m.year == some y)
  r3

/-- Embedding of MoviesRepository.list_movies
(app/repositories/movies_repository.py lines 86-114): filter, count,
then slice out the page window filtered[(page-1)*page_size : (page-1)*page_size + page_size].
The Python slice on non-negative bounds is List.drop followed by
List.take; the service layer always passes page at least 1 and
page_size at least 1, for which the two agree. -/
def list_movies (movies : List Movie) (page pageSize : Nat)
    (title genre : Option String) (year : Option Int) : List Movie × Nat :=
  let filtered := filter_movies movies title genre year
  let total := filtered.length
  let start := (page - 1) * pageSize
  ((filtered.drop start).take pageSize, total)

/-- Embedding of MoviesRepository.search_movies
(app/repositories/movies_repository.py lines 116-138): delegates to
list_movies with the query supplied as the title filter. -/
def search_movies (movies : List Movie) (query : String) (page pageSize : Nat)
    (genre : Option String) (year : Option Int) : List Movie × Nat :=
  list_movies movies page pageSize (some query) genre year

end MoviesRepository

/-- Response schema MovieRead (app/models/movie.py): identical fields to
Movie. -/
structure MovieRead where
  movie_id : Int
  title : String
  year : Option Int
  genres : List String
deriving Repr, DecidableEq

/-- Response envelope PaginatedMovies (app/models/movie.py). -/
structure PaginatedMovies where
  items : List MovieRead
  page : Int
  page_size : Int
  total_items : Nat
  total_pages : Nat
deriving Repr, DecidableEq

/-- Field-by-field mapping from Movie to MovieRead performed inline in
the service layer (app/services/movies_service.py lines 53-61). -/
def movie_to_read (m : Movie) : MovieRead :=
  { movie_id := m.movie_id, title := m.title, year := m.year, genres := m.genres }

namespace MoviesService

/-- Embedding of MoviesService.get_movies (app/services/movies_service.py
lines 22-69): clamp page_size into [1, 100] by min then max, clamp page
to at least 1, call the repository, compute
total_pages = (total_items + page_size - 1) / page_size with integer
division, and map rows to MovieRead. -/
def get_movies (movies : List Movie) (page pageSize : Int)
    (title genre : Option String) (year : Option Int) : PaginatedMovies :=
  let ps := max (min pageSize 100) 1
  let pg := max page 1
  let r := MoviesRepository.list_movies movies pg.toNat ps.toNat title genre year
  { items := r.fst.map movie_to_read
    page := pg
    page_size := ps
    total_items := r.snd
    total_pages := (r.snd + ps.toNat - 1) / ps.toNat }

/-- Embedding of MoviesService.search_movies
(app/services/movies_service.py lines 71-118): identical clamping and
shaping, delegating to the repository search. -/
def search_movies (movies : List Movie) (query : String) (page pageSize : Int)
    (genre : Option String) (year : Option Int) : PaginatedMovies :=
  let ps := max (min pageSize 100) 1
  let pg := max page 1
  let r := MoviesRepository.search_movies movies query pg.toNat ps.toNat genre year
  { items := r.fst.map movie_to_read
    page := pg
    page_size := ps
    total_items := r.snd
    total_pages := (r.snd + ps.toNat - 1) / ps.toNat }

end MoviesService

/-- Decoded token claims restricted to the claim names the validators
consult (app/core/token_validator.py and app/core/keycloak.py): subject,
authorized party, audience and token use.  A claim name absent from the
decoded mapping is modelled as Option.none. -/
structure Claims where
  sub : Option String
  azp : Option String
  aud : Option String
  token_use : Option String
deriving Repr, DecidableEq

/-- Entry of a JWKS key set, restricted to the fields the key selection
code consults: key id, declared use and key type. -/
structure JWK where
  kid : Option String
  use : Option String
  kty : Option String
deriving Repr, DecidableEq

namespace TokenValidatorPy

/-- Embedding of the claim checks of KeycloakTokenValidator.verify_token
(app/core/token_validator.py lines 103-118), run after jwt.decode has
verified signature and expiry: reject when the authorized-party claim
and the audience claim both differ from the configured client id,
otherwise return the claims.  No other claim is inspected. -/
def keycloak_verify_claims (clientId : String) (claims : Claims) : Except String Claims :=
  if claims.azp ≠ some clientId ∧ claims.aud ≠ some clientId then
    Except.error "Invalid audience"
  else
    Except.ok claims

/-- Embedding of the claim checks of CognitoTokenValidator.verify_token
(app/core/token_validator.py lines 207-212), run after jwt.decode has
verified the signature: reject when the token_use claim differs from
access, otherwise return the claims.  No other claim is inspected. -/
def cognito_verify_claims (claims : Claims) : Except String Claims :=
  if claims.token_use ≠ some "access" then
    Except.error "Invalid token use"
  else
    Except.ok claims

/-- Embedding of the key selection of
KeycloakTokenValidator._fetch_public_key (app/core/token_validator.py
lines 63-67): error when the key set is empty, otherwise always take the
first entry. -/
def fetch_public_key_select (keys : List JWK) : Except String JWK :=
  match keys with
  | [] => Except.error "No keys found in Keycloak JWKS response"
  | k :: _ => Except.ok k

end TokenValidatorPy

namespace KeycloakCore

/-- Predicate from KeycloakTokenValidator.get_public_key
(app/core/keycloak.py line 47): entry declares use sig and key type RSA. -/
def sig_rsa_key (k : JWK) : Bool :=
  k.use == some "sig" && k.kty == some "RSA"

/-- Embedding of the key selection of KeycloakTokenValidator.get_public_key
(app/core/keycloak.py lines 41-54): error when the key set is empty;
otherwise take the first entry whose declared use is sig and whose key
type is RSA, falling back to the first entry of the set when no entry
qualifies. -/
def get_public_key_select (keys : List JWK) : Except String JWK :=
  match keys with
  | [] => Except.error "No keys found in JWKS"
  | k0 :: _ =>
    match keys.find? sig_rsa_key with
    | some k => Except.ok k
    | none => Except.ok k0

/-- Embedding of the claim checks of KeycloakTokenValidator.verify_token
(app/core/keycloak.py lines 103-117): reject when the subject claim is
absent; then reject when the authorized-party claim and the audience
claim both differ from the configured client id; otherwise return the
claims. -/
def keycloak_core_verify_claims (clientId : String) (claims : Claims) : Except String Claims :=
  if claims.sub = none then
    Except.error "Token missing sub claim"
  else if claims.azp ≠ some clientId ∧ claims.aud ≠ some clientId then
    Except.error "Invalid audience"
  else
    Except.ok claims

end KeycloakCore

/-- Cache state of a validator instance: the retained signing material,
empty until a fetch succeeds.  Instantiated at String for the PEM key
cached by KeycloakTokenValidator._public_key and at List JWK for the key
set cached by CognitoTokenValidator._jwks. -/
structure CachedKeyState (α : Type) where
  cache : Option α
deriving Repr, DecidableEq

/-- Outcome of one fetch call: the returned value or error, the new cache
state, the number of remote round trips performed by this call, and how
many of them successfully produced key material. -/
structure FetchOutcome (α : Type) where
  result : Except String α
  state : CachedKeyState α
  remoteCalls : Nat
  remoteSuccesses : Nat
deriving Repr

/-- Embedding of KeycloakTokenValidator._fetch_public_key
(app/core/token_validator.py lines 41-77) and of
CognitoTokenValidator._fetch_jwks (lines 136-165), which share this
structure: when the cache holds a value, return it without any remote
call; otherwise perform the remote fetch (its outcome is passed in as
net), store the value in the cache on success, and leave the cache empty
on failure so that the next call retries. -/
def cached_key_fetch {α : Type} (st : CachedKeyState α) (net : Except String α) : FetchOutcome α :=
  match st.cache with
  | some k => { result := Except.ok k, state := st, remoteCalls := 0, remoteSuccesses := 0 }
  | none =>
    match net with
    | Except.ok k =>
      { result := Except.ok k, state := { cache := some k }, remoteCalls := 1, remoteSuccesses := 1 }
    | Except.error e =>
      { result := Except.error e, state := st, remoteCalls := 1, remoteSuccesses := 0 }

/-- A sequence of verify_token calls on one validator instance: each call
first runs the cached fetch (with that call's prospective remote outcome),
threading the cache state; returns the final state and the total number
of successful remote fetches over the whole sequence. -/
def run_verify_calls {α : Type} (st : CachedKeyState α) : List (Except String α) → CachedKeyState α × Nat
  | [] => (st, 0)
  | net :: rest =>
    let o := cached_key_fetch st net
    let r := run_verify_calls o.state rest
    (r.fst, o.remoteSuccesses + r.snd)

/-- Concrete movie used to separate the two genre-filter semantics. -/
def dramaMovie : Movie :=
  { movie_id := 1, title := "The Piano", year := some 1993, genres := ["Drama", "Romance"] }

/-- Concrete movie matching the round-trip example of the spec. -/
def toyStory : Movie :=
  { movie_id := 2, title := "Toy Story (1995)", year := some 1995, genres := ["Animation", "Comedy"] }

/-- Third concrete movie for pagination witnesses. -/
def heatMovie : Movie :=
  { movie_id := 3, title := "Heat", year := some 1995, genres := ["Action", "Crime"] }

/-- Small concrete collection for witnesses. -/
def sampleMovies : List Movie := [dramaMovie, toyStory, heatMovie]

/-- Concrete decoded claims with no subject claim but a matching
authorized party and an access token use. -/
def claimsNoSub : Claims :=
  { sub := none, azp := some "movie-api", aud := none, token_use := some "access" }

/-- Concrete decoded claims whose authorized party and audience both
differ from the configured client id movie-api. -/
def claimsWrongAud : Claims :=
  { sub := some "user-1", azp := some "other-client", aud := some "other-aud",
    token_use := some "access" }

/-- Concrete JWKS entry that is not a signature key. -/
def encKey : JWK := { kid := some "k-enc", use := some "enc", kty := some "EC" }

/-- Concrete JWKS entry that qualifies as an RSA signature key. -/
def sigKey : JWK := { kid := some "k-sig", use := some "sig", kty := some "RSA" }

/-- C1 counterexample: with the single movie dramaMovie (genres Drama and
Romance) and the non-empty genre filter value Dram, list_movies includes
the row even though Dram is not an element of its genres array, because
the implemented filter is case-insensitive substring containment. -/
theorem c1_counterexample :
    (MoviesRepository.list_movies [dramaMovie] 1 20 none (some "Dram") none).fst = [dramaMovie] ∧
    ("Dram" : String) ∉ dramaMovie.genres := by
  exact ⟨by decide, by decide⟩

/-- C1 (amended): for every movie row and every non-empty genre filter
value, list_movies includes the row if and only if the lower-cased genre
value occurs as a substring of the lower-casing of some element of the
genres array (case-insensitive substring containment, not exact array
membership). -/
theorem c1_genre_filter_is_substring (movies : List Movie) (title : Option String)
    (g : String) (year : Option Int) (m : Movie) (hg : g ≠ "") :
    m ∈ MoviesRepository.filter_movies movies title (some g) year ↔
      m ∈ MoviesRepository.filter_movies movies title none year ∧
        m.genres.any (fun gg => substrCheck (pyLower g) (pyLower gg)) = true := by
  cases year with
  | none =>
    simp [MoviesRepository.filter_movies, hg, List.mem_filter]
  | some y =>
    simp [MoviesRepository.filter_movies, hg, List.mem_filter]
    tauto

/-- C1 witness: the amended statement evaluated on dramaMovie with the
genre filter value Dram. -/
theorem c1_witness :
    ("Dram" : String) ≠ "" ∧
    (dramaMovie ∈ MoviesRepository.filter_movies [dramaMovie] none (some "Dram") none ↔
      dramaMovie ∈ MoviesRepository.filter_movies [dramaMovie] none none none ∧
        dramaMovie.genres.any (fun gg => substrCheck (pyLower "Dram") (pyLower gg)) = true) :=
  ⟨by decide, c1_genre_filter_is_substring [dramaMovie] none "Dram" none dramaMovie (by decide)⟩

/-- C2 counterexample: claimsNoSub lacks the subject claim, yet both
verify_token variants of app/core/token_validator.py accept it (the
Keycloak variant because its authorized party matches the client id, and
the Cognito variant because its token use is access). -/
theorem c2_counterexample :
    claimsNoSub.sub = none ∧
    TokenValidatorPy.keycloak_verify_claims "movie-api" claimsNoSub = Except.ok claimsNoSub ∧
    TokenValidatorPy.cognito_verify_claims claimsNoSub = Except.ok claimsNoSub :=
  ⟨rfl, rfl, rfl⟩

/-- C2 (amended): a token lacking the subject claim is rejected only by
the KeycloakTokenValidator of app/core/keycloak.py; the two verify_token
variants of app/core/token_validator.py never inspect the subject claim,
accepting a subject-less token exactly when their other checks pass (the
audience or authorized-party match for Keycloak, token use equal to
access for Cognito). -/
theorem c2_sub_check_location (clientId : String) (claims : Claims)
    (h : claims.sub = none) :
    KeycloakCore.keycloak_core_verify_claims clientId claims =
      Except.error "Token missing sub claim" ∧
    (TokenValidatorPy.keycloak_verify_claims clientId claims = Except.ok claims ↔
      (claims.azp = some clientId ∨ claims.aud = some clientId)) ∧
    (TokenValidatorPy.cognito_verify_claims claims = Except.ok claims ↔
      claims.token_use = some "access") := by
  refine ⟨by simp [KeycloakCore.keycloak_core_verify_claims, h], ?_, ?_⟩
  · unfold TokenValidatorPy.keycloak_verify_claims
    by_cases h1 : claims.azp = some clientId
    · simp [h1]
    · by_cases h2 : claims.aud = some clientId
      · simp [h1, h2]
      · simp [h1, h2]
  · unfold TokenValidatorPy.cognito_verify_claims
    by_cases ht : claims.token_use = some "access" <;> simp [ht]

/-- C2 witness: the amended statement evaluated on claimsNoSub with
client id movie-api. -/
theorem c2_witness :
    claimsNoSub.sub = none ∧
    (KeycloakCore.keycloak_core_verify_claims "movie-api" claimsNoSub =
        Except.error "Token missing sub claim" ∧
      (TokenValidatorPy.keycloak_verify_claims "movie-api" claimsNoSub = Except.ok claimsNoSub ↔
        (claimsNoSub.azp = some "movie-api" ∨ claimsNoSub.aud = some "movie-api")) ∧
      (TokenValidatorPy.cognito_verify_claims claimsNoSub = Except.ok claimsNoSub ↔
        claimsNoSub.token_use = some "access")) :=
  ⟨rfl, c2_sub_check_location "movie-api" claimsNoSub rfl⟩

/-- C3 counterexample: claimsWrongAud has an authorized-party claim and
an audience claim that both differ from the configured client id
movie-api, yet the Cognito verify_token variant accepts it, because that
variant never compares any claim against the client id. -/
theorem c3_counterexample :
    claimsWrongAud.azp ≠ some "movie-api" ∧
    claimsWrongAud.aud ≠ some "movie-api" ∧
    TokenValidatorPy.cognito_verify_claims claimsWrongAud = Except.ok claimsWrongAud :=
  ⟨by decide, by decide, rfl⟩

/-- C3 (amended): a token whose authorized-party claim and audience claim
both differ from the configured client id is rejected by both Keycloak
validator variants, but the Cognito variant performs no audience or
authorized-party comparison: it accepts such a token exactly when its
token use claim equals access. -/
theorem c3_audience_rejection_keycloak_only (clientId : String) (claims : Claims)
    (h1 : claims.azp ≠ some clientId) (h2 : claims.aud ≠ some clientId) :
    TokenValidatorPy.keycloak_verify_claims clientId claims = Except.error "Invalid audience" ∧
    (∃ e, KeycloakCore.keycloak_core_verify_claims clientId claims = Except.error e) ∧
    (TokenValidatorPy.cognito_verify_claims claims = Except.ok claims ↔
      claims.token_use = some "access") := by
  refine ⟨?_, ?_, ?_⟩
  · simp [TokenValidatorPy.keycloak_verify_claims, h1, h2]
  · by_cases hs : claims.sub = none
    · exact ⟨"Token missing sub claim", by simp [KeycloakCore.keycloak_core_verify_claims, hs]⟩
    · exact ⟨"Invalid audience", by simp [KeycloakCore.keycloak_core_verify_claims, hs, h1, h2]⟩
  · unfold TokenValidatorPy.cognito_verify_claims
    by_cases ht : claims.token_use = some "access" <;> simp [ht]

/-- C3 witness: the amended statement evaluated on claimsWrongAud with
client id movie-api. -/
theorem c3_witness :
    claimsWrongAud.azp ≠ some "movie-api" ∧
    claimsWrongAud.aud ≠ some "movie-api" ∧
    (TokenValidatorPy.keycloak_verify_claims "movie-api" claimsWrongAud =
        Except.error "Invalid audience" ∧
      (∃ e, KeycloakCore.keycloak_core_verify_claims "movie-api" claimsWrongAud =
        Except.error e) ∧
      (TokenValidatorPy.cognito_verify_claims claimsWrongAud = Except.ok claimsWrongAud ↔
        claimsWrongAud.token_use = some "access")) :=
  ⟨by decide, by decide,
    c3_audience_rejection_keycloak_only "movie-api" claimsWrongAud (by decide) (by decide)⟩

/-- C4 counterexample: on the key set with encKey first and sigKey
second, the _fetch_public_key of app/core/token_validator.py selects
encKey, the first entry, even though encKey is not an RSA signature key
and the qualifying sigKey is present in the set. -/
theorem c4_counterexample :
    TokenValidatorPy.fetch_public_key_select [encKey, sigKey] = Except.ok encKey ∧
    KeycloakCore.sig_rsa_key encKey = false ∧
    sigKey ∈ [encKey, sigKey] ∧
    KeycloakCore.sig_rsa_key sigKey = true :=
  ⟨rfl, by decide, by decide, by decide⟩

/-- C4 (amended): the prefer-signature-RSA-then-fall-back-to-first key
selection policy is implemented by get_public_key of app/core/keycloak.py:
it returns a qualifying key whenever one exists in the set, and returns
the first entry when no entry qualifies; the _fetch_public_key of
app/core/token_validator.py instead always selects the first entry of a
non-empty key set. -/
theorem c4_key_selection_policy :
    (∀ (keys : List JWK) (k : JWK), k ∈ keys → KeycloakCore.sig_rsa_key k = true →
      ∃ k2, KeycloakCore.get_public_key_select keys = Except.ok k2 ∧
        KeycloakCore.sig_rsa_key k2 = true) ∧
    (∀ (k0 : JWK) (rest : List JWK),
      (∀ k ∈ k0 :: rest, KeycloakCore.sig_rsa_key k = false) →
        KeycloakCore.get_public_key_select (k0 :: rest) = Except.ok k0) ∧
    (∀ (k0 : JWK) (rest : List JWK),
      TokenValidatorPy.fetch_public_key_select (k0 :: rest) = Except.ok k0) := by
  refine ⟨?_, ?_, ?_⟩
  · intro keys k hk hsig
    cases keys with
    | nil => cases hk
    | cons k0 rest =>
      have hfind : ((k0 :: rest).find? KeycloakCore.sig_rsa_key).isSome :=
        List.find?_isSome.mpr ⟨k, hk, hsig⟩
      obtain ⟨k2, hk2⟩ := Option.isSome_iff_exists.mp hfind
      exact ⟨k2, by simp [KeycloakCore.get_public_key_select, hk2], List.find?_some hk2⟩
  · intro k0 rest hall
    have hnone : (k0 :: rest).find? KeycloakCore.sig_rsa_key = none :=
      List.find?_eq_none.mpr (fun x hx => by simp [hall x hx])
    simp [KeycloakCore.get_public_key_select, hnone]
  · intro k0 rest
    rfl

/-- C4 witness: the amended statement evaluated on the concrete key sets
built from encKey and sigKey. -/
theorem c4_witness :
    (sigKey ∈ [encKey, sigKey] ∧ KeycloakCore.sig_rsa_key sigKey = true ∧
      ∃ k2, KeycloakCore.get_public_key_select [encKey, sigKey] = Except.ok k2 ∧
        KeycloakCore.sig_rsa_key k2 = true) ∧
    ((∀ k ∈ [encKey], KeycloakCore.sig_rsa_key k = false) ∧
      KeycloakCore.get_public_key_select [encKey] = Except.ok encKey) ∧
    TokenValidatorPy.fetch_public_key_select [encKey, sigKey] = Except.ok encKey :=
  ⟨⟨by decide, by decide,
      c4_key_selection_policy.1 [encKey, sigKey] sigKey (by decide) (by decide)⟩,
    ⟨by decide, c4_key_selection_policy.2.1 encKey [] (by decide)⟩,
    c4_key_selection_policy.2.2 encKey [sigKey]⟩

/-- Helper: the formula (t + p - 1) / p used by the service layer equals
the ceiling of t / p, with the zero-items convention. -/
lemma ceil_div_formula (t p : Nat) (hp : 0 < p) :
    (t + p - 1) / p = if t = 0 then 0 else ⌈(t : ℚ) / (p : ℚ)⌉₊ := by
  rcases Nat.eq_zero_or_pos t with ht | ht
  · subst ht
    rw [if_pos rfl, Nat.zero_add]
    exact Nat.div_eq_of_lt (by omega)
  · rw [if_neg (by omega)]
    have key := Nat.div_add_mod (t + p - 1) p
    have hr : (t + p - 1) % p < p := Nat.mod_lt _ hp
    set q := (t + p - 1) / p with hqdef
    have h1 : t ≤ p * q := by omega
    have h2 : (q - 1) * p < t := by
      rw [Nat.sub_mul, Nat.one_mul, Nat.mul_comm q p]
      omega
    have hq0 : q ≠ 0 := by
      intro h0
      rw [h0, Nat.mul_zero] at key
      omega
    rw [eq_comm, Nat.ceil_eq_iff hq0]
    have hp2 : (0 : ℚ) < (p : ℚ) := by exact_mod_cast hp
    constructor
    · rw [lt_div_iff₀ hp2]
      exact_mod_cast h2
    · rw [div_le_iff₀ hp2]
      have h3 : t ≤ q * p := by
        rw [Nat.mul_comm q p]
        exact h1
      exact_mod_cast h3

/-- Helper: the total_pages field of get_movies is the ceiling of
total_items over the effective page size, with 0 pages for 0 items. -/
lemma get_movies_total_pages (movies : List Movie) (page pageSize : Int)
    (title genre : Option String) (year : Option Int) :
    (MoviesService.get_movies movies page pageSize title genre year).total_pages =
      if (MoviesService.get_movies movies page pageSize title genre year).total_items = 0 then 0
      else ⌈((MoviesService.get_movies movies page pageSize title genre year).total_items : ℚ) /
        ((MoviesService.get_movies movies page pageSize title genre year).page_size : ℚ)⌉₊ := by
  simp only [MoviesService.get_movies]
  set ps := max (min pageSize 100) 1 with hps
  have hpos : (0 : Int) < ps := by omega
  have hpsn : 0 < ps.toNat := by omega
  rw [ceil_div_formula _ _ hpsn]
  have hcast : ((ps.toNat : ℚ)) = ((ps : Int) : ℚ) := by
    exact_mod_cast Int.toNat_of_nonneg (by omega : (0 : Int) ≤ ps)
  rw [hcast]

/-- Helper: the same statement for search_movies, which builds its result
through the repository search alias. -/
lemma search_movies_total_pages (movies : List Movie) (query : String)
    (page pageSize : Int) (genre : Option String) (year : Option Int) :
    (MoviesService.search_movies movies query page pageSize genre year).total_pages =
      if (MoviesService.search_movies movies query page pageSize genre year).total_items = 0 then 0
      else ⌈((MoviesService.search_movies movies query page pageSize genre year).total_items : ℚ) /
        ((MoviesService.search_movies movies query page pageSize genre year).page_size : ℚ)⌉₊ :=
  get_movies_total_pages movies page pageSize (some query) genre year

/-- C5: for every movie collection, every filter combination, every page
at least 1 and page size at least 1, list_movies returns a page whose
length is min(page_size, max(0, total_items - (page - 1) * page_size));
in particular a page beyond the available data yields an empty item list
while total_items is unchanged. -/
theorem c5_page_window_length (movies : List Movie) (page pageSize : Nat)
    (title genre : Option String) (year : Option Int)
    (hpage : 1 ≤ page) (hps : 1 ≤ pageSize) :
    (((MoviesRepository.list_movies movies page pageSize title genre year).fst.length : Int) =
      min (pageSize : Int)
        (max 0 (((MoviesRepository.list_movies movies page pageSize title genre year).snd : Int) -
          ((page : Int) - 1) * (pageSize : Int)))) ∧
    (((MoviesRepository.list_movies movies page pageSize title genre year).snd : Int) ≤
        ((page : Int) - 1) * (pageSize : Int) →
      (MoviesRepository.list_movies movies page pageSize title genre year).fst = []) := by
  have hcast : (((page - 1) * pageSize : Nat) : Int) = ((page : Int) - 1) * (pageSize : Int) := by
    push_cast [Nat.cast_sub hpage]
    ring
  have hfst : (MoviesRepository.list_movies movies page pageSize title genre year).fst =
      ((MoviesRepository.filter_movies movies title genre year).drop
        ((page - 1) * pageSize)).take pageSize := rfl
  have hsnd : (MoviesRepository.list_movies movies page pageSize title genre year).snd =
      (MoviesRepository.filter_movies movies title genre year).length := rfl
  rw [hfst, hsnd, ← hcast]
  constructor
  · rw [List.length_take, List.length_drop]
    omega
  · intro h
    have hlen : (MoviesRepository.filter_movies movies title genre year).length ≤
        (page - 1) * pageSize := by exact_mod_cast h
    rw [List.drop_eq_nil_of_le hlen]
    simp

/-- C5 witness: the statement evaluated on sampleMovies at page 2 with
page size 2: 3 items total, so the second page holds exactly one item. -/
theorem c5_witness :
    (1 : Nat) ≤ 2 ∧
    (((MoviesRepository.list_movies sampleMovies 2 2 none none none).fst.length : Int) =
      min ((2 : Nat) : Int)
        (max 0 (((MoviesRepository.list_movies sampleMovies 2 2 none none none).snd : Int) -
          (((2 : Nat) : Int) - 1) * ((2 : Nat) : Int)))) ∧
    (((MoviesRepository.list_movies sampleMovies 2 2 none none none).snd : Int) ≤
        (((2 : Nat) : Int) - 1) * ((2 : Nat) : Int) →
      (MoviesRepository.list_movies sampleMovies 2 2 none none none).fst = []) := by
  refine ⟨by norm_num, ?_, ?_⟩
  · exact (c5_page_window_length sampleMovies 2 2 none none none (by norm_num) (by norm_num)).1
  · exact (c5_page_window_length sampleMovies 2 2 none none none (by norm_num) (by norm_num)).2

/-- C6: for every PaginatedMovies result produced by get_movies or
search_movies, total_pages equals the ceiling of total_items divided by
the effective page size when total_items is positive, and 0 when
total_items is 0. -/
theorem c6_total_pages_is_ceiling :
    ∀ (movies : List Movie) (page pageSize : Int) (title genre : Option String)
      (year : Option Int) (query : String),
      ((MoviesService.get_movies movies page pageSize title genre year).total_pages =
        if (MoviesService.get_movies movies page pageSize title genre year).total_items = 0 then 0
        else ⌈((MoviesService.get_movies movies page pageSize title genre year).total_items : ℚ) /
          ((MoviesService.get_movies movies page pageSize title genre year).page_size : ℚ)⌉₊) ∧
      ((MoviesService.search_movies movies query page pageSize genre year).total_pages =
        if (MoviesService.search_movies movies query page pageSize genre year).total_items = 0
        then 0
        else ⌈((MoviesService.search_movies movies query page pageSize genre year).total_items : ℚ) /
          ((MoviesService.search_movies movies query page pageSize genre year).page_size : ℚ)⌉₊) :=
  fun movies page pageSize title genre year query =>
    ⟨get_movies_total_pages movies page pageSize title genre year,
      search_movies_total_pages movies query page pageSize genre year⟩

/-- C7: for every integer page_size input, including values below 1 and
above 100, get_movies and search_movies succeed with an effective
page_size in the closed range 1 to 100, and every page input below 1 is
clamped to 1. -/
theorem c7_clamping :
    ∀ (movies : List Movie) (page pageSize : Int) (title genre : Option String)
      (year : Option Int) (query : String),
      (1 ≤ (MoviesService.get_movies movies page pageSize title genre year).page_size ∧
        (MoviesService.get_movies movies page pageSize title genre year).page_size ≤ 100 ∧
        (page < 1 → (MoviesService.get_movies movies page pageSize title genre year).page = 1)) ∧
      (1 ≤ (MoviesService.search_movies movies query page pageSize genre year).page_size ∧
        (MoviesService.search_movies movies query page pageSize genre year).page_size ≤ 100 ∧
        (page < 1 →
          (MoviesService.search_movies movies query page pageSize genre year).page = 1)) := by
  intro movies page pageSize title genre year query
  simp only [MoviesService.get_movies, MoviesService.search_movies]
  refine ⟨⟨?_, ?_, fun h => ?_⟩, ⟨?_, ?_, fun h => ?_⟩⟩ <;> omega

/-- C7 witness: the statement evaluated at page -3 and page size 250:
the effective page size is clamped into the range and the page to 1. -/
theorem c7_witness :
    ((-3 : Int) < 1) ∧
    1 ≤ (MoviesService.get_movies sampleMovies (-3) 250 none none none).page_size ∧
    (MoviesService.get_movies sampleMovies (-3) 250 none none none).page_size ≤ 100 ∧
    (MoviesService.get_movies sampleMovies (-3) 250 none none none).page = 1 := by
  have h := (c7_clamping sampleMovies (-3) 250 none none none "q").1
  exact ⟨by norm_num, h.1, h.2.1, h.2.2 (by norm_num)⟩

/-- C8: for every query string, page, page size, genre and year,
search_movies returns exactly the same items and total_items as
list_movies called with the query supplied as the title filter, both at
the repository layer and at the service layer. -/
theorem c8_search_is_list_with_title :
    (∀ (movies : List Movie) (query : String) (page pageSize : Nat)
      (genre : Option String) (year : Option Int),
      MoviesRepository.search_movies movies query page pageSize genre year =
        MoviesRepository.list_movies movies page pageSize (some query) genre year) ∧
    (∀ (movies : List Movie) (query : String) (page pageSize : Int)
      (genre : Option String) (year : Option Int),
      MoviesService.search_movies movies query page pageSize genre year =
        MoviesService.get_movies movies page pageSize (some query) genre year) :=
  ⟨fun _ _ _ _ _ _ => rfl, fun _ _ _ _ _ _ => rfl⟩

/-- Helper: once the cache holds a key, any further sequence of verify
calls leaves it unchanged and performs no successful remote fetch. -/
lemma run_verify_calls_of_cached {α : Type} (k : α) (nets : List (Except String α)) :
    run_verify_calls { cache := some k } nets = ({ cache := some k }, 0) := by
  induction nets with
  | nil => rfl
  | cons net rest ih => simp [run_verify_calls, cached_key_fetch, ih]

/-- C9: once a key fetch has succeeded the cached key is retained and
reused, with no further remote call, for every subsequent verify call on
the same validator instance; and any sequence of verify calls starting
from the fresh instance performs at most one successful remote key
fetch. -/
theorem c9_at_most_one_successful_fetch :
    (∀ (α : Type) (st : CachedKeyState α) (net : Except String α) (k : α),
      st.cache = some k →
        cached_key_fetch st net =
          { result := Except.ok k, state := st, remoteCalls := 0, remoteSuccesses := 0 }) ∧
    (∀ (α : Type) (nets : List (Except String α)),
      (run_verify_calls ({ cache := none } : CachedKeyState α) nets).snd ≤ 1) := by
  constructor
  · intro α st net k hk
    obtain ⟨c⟩ := st
    cases hk
    rfl
  · intro α nets
    induction nets with
    | nil => simp [run_verify_calls]
    | cons net rest ih =>
      cases net with
      | ok k => simp [run_verify_calls, cached_key_fetch, run_verify_calls_of_cached]
      | error e => simpa [run_verify_calls, cached_key_fetch] using ih

/-- C9 witness: the statement evaluated on a concrete instance whose
cache holds the key PEM, with a failing network oracle, and on a fresh
instance observing two verify calls whose fetches would both succeed. -/
theorem c9_witness :
    ({ cache := some "PEM" } : CachedKeyState String).cache = some "PEM" ∧
    cached_key_fetch ({ cache := some "PEM" } : CachedKeyState String)
        (Except.error "fetch failed") =
      { result := Except.ok "PEM", state := { cache := some "PEM" },
        remoteCalls := 0, remoteSuccesses := 0 } ∧
    (run_verify_calls ({ cache := none } : CachedKeyState String)
      [Except.ok "PEM", Except.ok "PEM2"]).snd ≤ 1 :=
  ⟨rfl,
    c9_at_most_one_successful_fetch.1 String { cache := some "PEM" }
      (Except.error "fetch failed") "PEM" rfl,
    c9_at_most_one_successful_fetch.2 String [Except.ok "PEM", Except.ok "PEM2"]⟩

/-- C10: passing the empty string as the title or genre filter imposes no
constraint: for every page and page size, list_movies with the empty
title filter, or the empty genre filter, returns exactly the same items
and total_items as the same call with that filter absent. -/
theorem c10_empty_filter_no_constraint :
    ∀ (movies : List Movie) (page pageSize : Nat) (title genre : Option String)
      (year : Option Int),
      MoviesRepository.list_movies movies page pageSize (some "") genre year =
        MoviesRepository.list_movies movies page pageSize none genre year ∧
      MoviesRepository.list_movies movies page pageSize title (some "") year =
        MoviesRepository.list_movies movies page pageSize title none year := by
  intro movies page pageSize title genre year
  constructor <;> simp [MoviesRepository.list_movies, MoviesRepository.filter_movies]
